import Mathlib

/-!
# docker-server: request lifecycle of `cmd/docker-server.go`

A shallow embedding of the submission handler, the build pipeline, the status
registry and the identifier generator of `src/cmd/docker-server.go`.

Modelling conventions.

* The process state is a `World`: the status registry `DockerRequests` and a
  history `trace` of the observable actions performed so far, in program order
  (registry writes, log lines, external commands run, channel sends, goroutines
  spawned). The history is a ghost variable; it does not influence control flow.
* `exec.Cmd.Run` is an oracle `Runtime`: it maps a command to the error it
  returns (`none` is Go's `nil`).
* `rand.Int` is a stream `src : Nat → Int`; `src k` is the value of the `k`-th
  call made by the function under consideration.
* A panic is the `Option String` component of a result: `some v` means the
  function is panicking with value `v`.
* The body of `set` runs under the map's mutex, so it is one atomic step.
-/

namespace DockerServer

/-! ## Data model -/

/-- Go `DockerBuildFile`; the `io.Reader` is the sequence of bytes it yields. -/
structure DockerBuildFile where
  name : String
  tag : String
  ports : List Int
  image : List Nat
deriving DecidableEq

/-- Go `dockerBuildRequest`, the value sent on `dockerRequestChan`. -/
structure dockerBuildRequest where
  id : String
  buildFile : DockerBuildFile
deriving DecidableEq

/-- Go `type callbackID string`. -/
abbrev callbackID := String

def imageFileFormKey : String := "dockerImage"
def imageNameFormKey : String := "name"
def imageTagFormKey : String := "tag"
def imagePortsFormKey : String := "ports"
def statusRunning : String := "Running"
def statusFailed : String := "Failed"
def statusSuccess : String := "Done"
def urlCallback : String := "/status"
def uuidKeySize : Nat := 16

/-- Go `exec.Cmd`, restricted to the fields the program sets. `Args` holds the
command name followed by its arguments, as `exec.Command` builds it. -/
structure Cmd where
  Path : String
  Args : List String
  Stdin : Option (List Nat)
deriving DecidableEq

/-- Go `exec.Command(name, arg...)`. -/
def exec.Command (name : String) (arg : List String) : Cmd :=
  { Path := name, Args := name :: arg, Stdin := none }

/-- The external runtime: the error returned by `(*exec.Cmd).Run`, `none` for `nil`. -/
abbrev Runtime := Cmd → Option String

/-- Observable actions, recorded in program order. -/
inductive Event where
  | set (key value : String)
  | log (line : String)
  | exec (c : Cmd)
  | send (r : dockerBuildRequest)
  | spawn (id : String) (dockerFile : DockerBuildFile)
deriving DecidableEq

/-- Go `DockerBuildRequestMap`: the `requests` map. -/
structure DockerBuildRequestMap where
  requests : String → Option String

/-- Go `(*DockerBuildRequestMap).set`: `dbrm.requests[key] = value` under the mutex. -/
def DockerBuildRequestMap.set (dbrm : DockerBuildRequestMap) (key value : String) :
    DockerBuildRequestMap :=
  { requests := fun k => if k = key then some value else dbrm.requests k }

/-- Process state: the global `DockerRequests` and the history of actions. -/
structure World where
  DockerRequests : DockerBuildRequestMap
  trace : List Event

/-- The state at process start: `make(map[string]string)`, nothing done yet. -/
def World.init : World :=
  { DockerRequests := { requests := fun _ => none }, trace := [] }

/-- Append one action to the history. -/
def World.emit (w : World) (e : Event) : World :=
  { w with trace := w.trace ++ [e] }

/-- The call `DockerRequests.set(key, value)`. -/
def World.set (w : World) (key value : String) : World :=
  { DockerRequests := w.DockerRequests.set key value,
    trace := w.trace ++ [Event.set key value] }

/-- Status values written for `id`, oldest first. -/
def writesFor (id : String) : List Event → List String
  | [] => []
  | Event.set k v :: es => if k = id then v :: writesFor id es else writesFor id es
  | _ :: es => writesFor id es

/-- All registry writes, oldest first. -/
def writes : List Event → List (String × String)
  | [] => []
  | Event.set k v :: es => (k, v) :: writes es
  | _ :: es => writes es

/-- Values sent on `dockerRequestChan`, oldest first. -/
def sends : List Event → List dockerBuildRequest
  | [] => []
  | Event.send r :: es => r :: sends es
  | _ :: es => sends es

/-- External commands run, oldest first. -/
def execs : List Event → List Cmd
  | [] => []
  | Event.exec c :: es => c :: execs es
  | _ :: es => execs es

/-- Goroutines started by a `go` statement, oldest first. -/
def spawns : List Event → List (String × DockerBuildFile)
  | [] => []
  | Event.spawn i f :: es => (i, f) :: spawns es
  | _ :: es => spawns es

/-! ## Identifier generator -/

/-- The constant `letters` of `generateUUID`. -/
def letters : String := "0123456789abcdefghijklmnopqrstuvwxyzABCDEFGHIJKLMNOPQRSTUVWXYZ"

/-- The index expression `letters[num]` for a Go `int`: a run-time panic when
`num` is negative or not below `len(letters)`. -/
def lettersAt (num : Int) : Except String Char :=
  if 0 ≤ num then
    match letters.data[num.toNat]? with
    | some c => .ok c
    | none => .error "runtime error: index out of range"
  else .error "runtime error: index out of range"

/-- The loop `for i := 0; i < len(ret); i++` of `generateUUID`, from index `i`.
Go's `%` on `int` truncates toward zero, hence `Int.tmod`. -/
def generateUUID.loop (src : Nat → Int) : Nat → Nat → List Char → Except String (List Char)
  | 0, _, _ => .error "out of fuel"
  | fuel + 1, i, ret =>
    if i < ret.length then
      let num := Int.tmod (src i) (letters.length : Int)
      match lettersAt num with
      | .error e => .error e
      | .ok c => generateUUID.loop src fuel (i + 1) (ret.set i c)
    else .ok ret

/-- Go `generateUUID`; `.error` is a run-time panic. -/
def generateUUID (src : Nat → Int) : Except String String :=
  match generateUUID.loop src (uuidKeySize + 1) 0 (List.replicate uuidKeySize (Char.ofNat 0)) with
  | .error e => .error e
  | .ok ret => .ok (String.mk ret)

/-! ## Logging, commands, panics -/

/-- Go `log.Printf` with the already formatted text. -/
def log.Printf (w : World) (s : String) : World :=
  w.emit (Event.log s)

/-- Go `log.Println`: the text followed by a newline. -/
def log.Println (w : World) (s : String) : World :=
  w.emit (Event.log (s ++ "\n"))

/-- Go `log.Panicln`: logs `s` followed by a newline, then panics with that text. -/
def log.Panicln (w : World) (s : String) : Option String × World :=
  (some (s ++ "\n"), w.emit (Event.log (s ++ "\n")))

/-- Go `recover()` in a deferred function: returns the value of the current
panic and stops it. Result: (value returned, panic still in progress). -/
def recover (panicking : Option String) : Option String × Option String :=
  (panicking, none)

/-- Go `(*exec.Cmd).Run`: runs the command and returns its error. -/
def Cmd.Run (docker : Runtime) (c : Cmd) (w : World) : Option String × World :=
  (docker c, w.emit (Event.exec c))

/-! ## Build pipeline -/

/-- The command `loadDockerImageCmd` with `Stdin = dockerFile.image`. Its
`Stderr` is the log writer, which carries no data of the program. -/
def loadDockerImageCmd (dockerFile : DockerBuildFile) : Cmd :=
  { exec.Command "docker" ["load"] with Stdin := some dockerFile.image }

/-- The command `runDockerImageCmd`. -/
def runDockerImageCmd (id imageName : String) : Cmd :=
  exec.Command "docker" ["run", "-d", "-P", "--name", id, imageName]

/-- The local `imageName := fmt.Sprintf("%s:%s", dockerFile.name, dockerFile.tag)`. -/
def imageNameOf (dockerFile : DockerBuildFile) : String :=
  dockerFile.name ++ ":" ++ dockerFile.tag

/-- Statements of the goroutine started by `executeDockerBuildFromImportFile`,
without its deferred function. First component: the panic it ends with, if any. -/
def executeDockerBuildFromImportFile.goBody (docker : Runtime) (id : String)
    (dockerFile : DockerBuildFile) (w : World) : Option String × World :=
  let w := w.set id statusRunning
  let imageName := imageNameOf dockerFile
  let w := log.Printf w ("[" ++ id ++ "] loading docker archive")
  match Cmd.Run docker (loadDockerImageCmd dockerFile) w with
  | (some err, w) =>
    let w := w.set id statusFailed
    let w := log.Println w "import the docker image failed"
    log.Panicln w err
  | (none, w) =>
    let w := log.Printf w ("[" ++ id ++ "] running command")
    match Cmd.Run docker (runDockerImageCmd id imageName) w with
    | (some err, w) =>
      let w := w.set id statusFailed
      log.Panicln w err
    | (none, w) =>
      let w := w.set id statusSuccess
      let w := w.emit (Event.send { id := id, buildFile := dockerFile })
      (none, w)

/-- The goroutine of `executeDockerBuildFromImportFile`: its body followed by
its deferred function, which calls `recover()` and has an empty branch for a
non-nil value. First component: the panic that leaves the goroutine (and would
end the process), if any. -/
def executeDockerBuildFromImportFile.goroutine (docker : Runtime) (id : String)
    (dockerFile : DockerBuildFile) (w : World) : Option String × World :=
  match executeDockerBuildFromImportFile.goBody docker id dockerFile w with
  | (p, w) =>
    match recover p with
    | (some _, still) => (still, w)
    | (none, still) => (still, w)

/-- Go `executeDockerBuildFromImportFile`, up to its `return`: draws the id and
starts the goroutine, whose statements are not part of the caller. `.error`
is a panic of `generateUUID`. -/
def executeDockerBuildFromImportFile (src : Nat → Int) (dockerFile : DockerBuildFile)
    (w : World) : Except String callbackID × World :=
  match generateUUID src with
  | .error e => (.error e, w)
  | .ok id => (.ok id, w.emit (Event.spawn id dockerFile))

/-! ## Submission handler -/

/-- The parts of `*http.Request` the handler reads. -/
structure Request where
  Method : String
  FormFile : String → Except String (List Nat)
  PostFormValue : String → String

/-- What the handler wrote to its `http.ResponseWriter`. -/
structure Response where
  code : Nat
  body : String
  location : Option String
deriving DecidableEq

/-- Go `http.Error(w, error, code)`. -/
def http.Error (error : String) (code : Nat) : Response :=
  { code := code, body := error ++ "\n", location := none }

/-- Go `http.Redirect(w, r, url, code)` for a POST request (no body is written). -/
def http.Redirect (url : String) (code : Nat) : Response :=
  { code := code, body := "", location := some url }

/-- Go `validateFormInputs`. -/
def validateFormInputs (formValue : String) : Option String :=
  if formValue = "" then some "invalid form input" else none

/-- Pieces of a character list between occurrences of `sep`. -/
def splitChars (sep : Char) : List Char → List (List Char)
  | [] => [[]]
  | c :: cs =>
    if c = sep then [] :: splitChars sep cs
    else
      match splitChars sep cs with
      | [] => [[c]]
      | p :: ps => (c :: p) :: ps

/-- Go `strings.Split(s, sep)` for a one-character separator. -/
def strings.Split (s : String) (sep : Char) : List String :=
  (splitChars sep s.data).map String.mk

/-- The two error kinds of `strconv`. -/
inductive strconv.Err where
  | ErrSyntax
  | ErrRange
deriving DecidableEq

/-- Digit loop of `strconv.ParseUint(s, 10, 64)`. -/
def strconv.parseDigits : List Char → Nat → Except strconv.Err Nat
  | [], n => .ok n
  | c :: cs, n =>
    if c.isDigit then
      let n1 := n * 10 + (c.toNat - 48)
      if 2 ^ 64 ≤ n1 then .error .ErrRange else strconv.parseDigits cs n1
    else .error .ErrSyntax

/-- Go `strconv.ParseUint(s, 10, 64)`. -/
def strconv.ParseUint (s : List Char) : Except strconv.Err Nat :=
  match s with
  | [] => .error .ErrSyntax
  | _ => strconv.parseDigits s 0

/-- Text of a `*strconv.NumError` of `ParseInt`. The quoting is exact for
printable ASCII without quote or backslash. -/
def strconv.numError (s : String) (e : strconv.Err) : String :=
  "strconv.ParseInt: parsing \"" ++ s ++ "\": " ++
    (match e with
     | .ErrSyntax => "invalid syntax"
     | .ErrRange => "value out of range")

/-- Go `strconv.ParseInt(s, 10, 64)`; the error is its text. -/
def strconv.ParseInt (s : String) : Except String Int :=
  match s.data with
  | [] => .error (strconv.numError s .ErrSyntax)
  | c :: cs =>
    let neg := decide (c = '-')
    let digits := if c = '+' ∨ c = '-' then cs else c :: cs
    match strconv.ParseUint digits with
    | .error e => .error (strconv.numError s e)
    | .ok un =>
      if !neg && decide (2 ^ 63 ≤ un) then .error (strconv.numError s .ErrRange)
      else if neg && decide (2 ^ 63 < un) then .error (strconv.numError s .ErrRange)
      else .ok (if neg then -(un : Int) else (un : Int))

/-- The loop `for _, port := range imagePortsSlice` of `imageHandlerFunc`:
appends each parsed port to `imagePortsIntSlice`; `.error` is the text of the
parse error it panics with. -/
def imageHandlerFunc.portsLoop : List String → List Int → Except String (List Int)
  | [], imagePortsIntSlice => .ok imagePortsIntSlice
  | port :: rest, imagePortsIntSlice =>
    match strconv.ParseInt port with
    | .error err => .error err
    | .ok intValue => imageHandlerFunc.portsLoop rest (imagePortsIntSlice ++ [intValue])

/-- Statements of `imageHandlerFunc` without its deferred function. Result:
the panic it ends with, what it wrote to the response, the new state. -/
def imageHandlerFunc.body (src : Nat → Int) (r : Request) (w : World) :
    Option String × Option Response × World :=
  if r.Method ≠ "POST" then
    (none, some (http.Error ("only POST is supported, got " ++ r.Method) 405), w)
  else
    match r.FormFile imageFileFormKey with
    | .error err =>
      match log.Panicln w ("unable to get docker file " ++ err) with
      | (p, w) => (p, none, w)
    | .ok dockerFile =>
      let imageName := r.PostFormValue imageNameFormKey
      match validateFormInputs imageName with
      | some err =>
        match log.Panicln w err with
        | (p, w) => (p, none, w)
      | none =>
        let imageTag := r.PostFormValue imageTagFormKey
        match validateFormInputs imageTag with
        | some err =>
          match log.Panicln w err with
          | (p, w) => (p, none, w)
        | none =>
          let imagePorts := r.PostFormValue imagePortsFormKey
          let imagePortsSlice := strings.Split imagePorts ','
          match imageHandlerFunc.portsLoop imagePortsSlice
              (List.replicate imagePortsSlice.length 0) with
          | .error err =>
            match log.Panicln w err with
            | (p, w) => (p, none, w)
          | .ok imagePortsIntSlice =>
            let dockerBuildFile : DockerBuildFile :=
              { name := imageName, tag := imageTag, ports := imagePortsIntSlice,
                image := dockerFile }
            match executeDockerBuildFromImportFile src dockerBuildFile w with
            | (.error p, w) => (some p, none, w)
            | (.ok id, w) =>
              (none, some (http.Redirect (urlCallback ++ "/" ++ id) 302), w)

/-- Go `imageHandlerFunc`: the body, then its deferred function, which calls
`recover()` and for a non-nil value `r` calls
`http.Error(w, fmt.Sprint(r), http.StatusBadRequest)`.
The first write to the response decides its status. -/
def imageHandlerFunc (src : Nat → Int) (r : Request) (w : World) : Response × World :=
  match imageHandlerFunc.body src r w with
  | (p, written, w) =>
    match recover p with
    | (some v, _) => (written.getD (http.Error v 400), w)
    | (none, _) => (written.getD { code := 200, body := "", location := none }, w)

/-! ## Histories of the three runs of the pipeline -/

/-- New history of a run whose load step fails with `err`. -/
def traceLoadFailed (id : String) (dockerFile : DockerBuildFile) (err : String) : List Event :=
  [Event.set id statusRunning,
   Event.log ("[" ++ id ++ "] loading docker archive"),
   Event.exec (loadDockerImageCmd dockerFile),
   Event.set id statusFailed,
   Event.log ("import the docker image failed" ++ "\n"),
   Event.log (err ++ "\n")]

/-- New history of a run whose load step succeeds and whose run step fails with `err`. -/
def traceRunFailed (id : String) (dockerFile : DockerBuildFile) (err : String) : List Event :=
  [Event.set id statusRunning,
   Event.log ("[" ++ id ++ "] loading docker archive"),
   Event.exec (loadDockerImageCmd dockerFile),
   Event.log ("[" ++ id ++ "] running command"),
   Event.exec (runDockerImageCmd id (imageNameOf dockerFile)),
   Event.set id statusFailed,
   Event.log (err ++ "\n")]

/-- New history of a run whose two steps succeed. -/
def traceSucceeded (id : String) (dockerFile : DockerBuildFile) : List Event :=
  [Event.set id statusRunning,
   Event.log ("[" ++ id ++ "] loading docker archive"),
   Event.exec (loadDockerImageCmd dockerFile),
   Event.log ("[" ++ id ++ "] running command"),
   Event.exec (runDockerImageCmd id (imageNameOf dockerFile)),
   Event.set id statusSuccess,
   Event.send { id := id, buildFile := dockerFile }]

/-! ## Sample inputs -/

/-- A request with method `m` that carries the archive bytes `1, 2, 3` under
`dockerImage` and the form values `n`, `t`, `p` under `name`, `tag`, `ports`;
every other key is absent. -/
def sampleRequest (m n t p : String) : Request :=
  { Method := m,
    FormFile := fun k => if k = imageFileFormKey then .ok [1, 2, 3] else .error "http: no such file",
    PostFormValue := fun k =>
      if k = imageNameFormKey then n
      else if k = imageTagFormKey then t
      else if k = imagePortsFormKey then p
      else "" }

/-- An entropy source returning 0, 1, 2, ... -/
def countingSource : Nat → Int := fun k => (k : Int)

/-! ## Identifier generator: lemmas -/

theorem letters_length : letters.length = 62 := by decide

theorem lettersAt_tmod (r : Int) (h : 0 ≤ r) :
    ∃ c, lettersAt (Int.tmod r (letters.length : Int)) = .ok c ∧ c ∈ letters.data := by
  have h0 : 0 ≤ Int.tmod r (letters.length : Int) := Int.tmod_nonneg _ h
  have h1 : Int.tmod r (letters.length : Int) < (letters.length : Int) :=
    Int.tmod_lt_of_pos _ (by rw [letters_length]; decide)
  have h2 : (Int.tmod r (letters.length : Int)).toNat < letters.data.length := by
    have : letters.data.length = letters.length := rfl
    omega
  refine ⟨letters.data[(Int.tmod r (letters.length : Int)).toNat], ?_, List.getElem_mem _⟩
  unfold lettersAt
  rw [if_pos h0, List.getElem?_eq_getElem h2]

theorem generateUUID_loop_ok (src : Nat → Int) (hsrc : ∀ k, 0 ≤ src k) :
    ∀ (fuel i : Nat) (ret : List Char), 0 < fuel → ret.length < fuel + i →
      (∀ j (hj : j < ret.length), j < i → ret[j] ∈ letters.data) →
      ∃ out, generateUUID.loop src fuel i ret = .ok out ∧ out.length = ret.length ∧
        ∀ c ∈ out, c ∈ letters.data := by
  intro fuel
  induction fuel with
  | zero => intro i ret h; omega
  | succ fuel ih =>
    intro i ret _ hlen hinv
    unfold generateUUID.loop
    by_cases hi : i < ret.length
    · rw [if_pos hi]
      obtain ⟨c, hc, hmem⟩ := lettersAt_tmod (src i) (hsrc i)
      simp only [hc]
      have hstep := ih (i + 1) (ret.set i c) (by omega) (by rw [List.length_set]; omega)
        (by
          intro j hj hji
          rw [List.getElem_set]
          split
          · exact hmem
          · exact hinv j (by simpa using hj) (by omega))
      obtain ⟨out, ho, hl, hall⟩ := hstep
      exact ⟨out, ho, by rw [hl, List.length_set], hall⟩
    · rw [if_neg hi]
      refine ⟨ret, rfl, rfl, ?_⟩
      intro c hc
      obtain ⟨n, hn, rfl⟩ := List.getElem_of_mem hc
      exact hinv n hn (by omega)

theorem generateUUID_returns (src : Nat → Int) (hsrc : ∀ k, 0 ≤ src k) :
    ∃ s, generateUUID src = .ok s ∧ s.length = 16 ∧ ∀ c ∈ s.data, c ∈ letters.data := by
  obtain ⟨out, ho, hl, hall⟩ := generateUUID_loop_ok src hsrc (uuidKeySize + 1) 0
    (List.replicate uuidKeySize (Char.ofNat 0)) (by decide) (by simp)
    (by intro j _ hj; omega)
  refine ⟨String.mk out, ?_, ?_, hall⟩
  · unfold generateUUID
    rw [ho]
  · show out.length = 16
    rw [hl]; rfl

/-! ## Identifier generator: claim -/

/-- C5. For every entropy source whose values are non-negative, every index
`rand.Int() % len(letters)` lies in `[0, 62)`, and `generateUUID` returns (no
index panic) a string of length 16 all of whose characters are taken from
`letters`, an alphabet of 62 distinct alphanumeric characters. -/
theorem generateUUID_length_alphabet (src : Nat → Int) (hsrc : ∀ k, 0 ≤ src k) :
    (∀ k, 0 ≤ Int.tmod (src k) (letters.length : Int) ∧
        Int.tmod (src k) (letters.length : Int) < (letters.length : Int)) ∧
    letters.length = 62 ∧ letters.data.Nodup ∧
    (∀ c ∈ letters.data, c.isAlphanum = true) ∧
    ∃ s, generateUUID src = .ok s ∧ s.length = 16 ∧ ∀ c ∈ s.data, c ∈ letters.data :=
  ⟨fun k => ⟨Int.tmod_nonneg _ (hsrc k),
    Int.tmod_lt_of_pos _ (by rw [letters_length]; decide)⟩, letters_length, by decide,
    by decide, generateUUID_returns src hsrc⟩

theorem generateUUID_length_alphabet_witness :
    (∀ k : Nat, (0 : Int) ≤ (k : Int) * 7) ∧
    ∃ s, generateUUID (fun k => (k : Int) * 7) = .ok s ∧ s.length = 16 ∧
      ∀ c ∈ s.data, c ∈ letters.data :=
  ⟨fun k => by positivity,
   (generateUUID_length_alphabet (fun k => (k : Int) * 7) (fun k => by positivity)).2.2.2.2⟩

/-! ## Lemmas on histories -/

theorem writesFor_append (id : String) (xs ys : List Event) :
    writesFor id (xs ++ ys) = writesFor id xs ++ writesFor id ys := by
  induction xs with
  | nil => rfl
  | cons e es ih =>
    cases e <;> simp [writesFor, ih]
    split <;> simp

theorem writes_append (xs ys : List Event) : writes (xs ++ ys) = writes xs ++ writes ys := by
  induction xs with
  | nil => rfl
  | cons e es ih => cases e <;> simp [writes, ih]

theorem sends_append (xs ys : List Event) : sends (xs ++ ys) = sends xs ++ sends ys := by
  induction xs with
  | nil => rfl
  | cons e es ih => cases e <;> simp [sends, ih]

theorem execs_append (xs ys : List Event) : execs (xs ++ ys) = execs xs ++ execs ys := by
  induction xs with
  | nil => rfl
  | cons e es ih => cases e <;> simp [execs, ih]

theorem spawns_append (xs ys : List Event) : spawns (xs ++ ys) = spawns xs ++ spawns ys := by
  induction xs with
  | nil => rfl
  | cons e es ih => cases e <;> simp [spawns, ih]

/-! ## The three runs of the pipeline -/

theorem goroutine_load_failed (docker : Runtime) (id : String) (dockerFile : DockerBuildFile)
    (w : World) (err : String) (hload : docker (loadDockerImageCmd dockerFile) = some err) :
    executeDockerBuildFromImportFile.goroutine docker id dockerFile w =
      (none, { DockerRequests := (w.DockerRequests.set id statusRunning).set id statusFailed,
               trace := w.trace ++ traceLoadFailed id dockerFile err }) := by
  simp [executeDockerBuildFromImportFile.goroutine, executeDockerBuildFromImportFile.goBody,
    Cmd.Run, hload, log.Panicln, log.Println, log.Printf, World.emit, World.set, recover,
    traceLoadFailed]

theorem goroutine_run_failed (docker : Runtime) (id : String) (dockerFile : DockerBuildFile)
    (w : World) (err : String) (hload : docker (loadDockerImageCmd dockerFile) = none)
    (hrun : docker (runDockerImageCmd id (imageNameOf dockerFile)) = some err) :
    executeDockerBuildFromImportFile.goroutine docker id dockerFile w =
      (none, { DockerRequests := (w.DockerRequests.set id statusRunning).set id statusFailed,
               trace := w.trace ++ traceRunFailed id dockerFile err }) := by
  simp [executeDockerBuildFromImportFile.goroutine, executeDockerBuildFromImportFile.goBody,
    Cmd.Run, hload, hrun, log.Panicln, log.Printf, World.emit, World.set, recover,
    traceRunFailed]

theorem goroutine_succeeded (docker : Runtime) (id : String) (dockerFile : DockerBuildFile)
    (w : World) (hload : docker (loadDockerImageCmd dockerFile) = none)
    (hrun : docker (runDockerImageCmd id (imageNameOf dockerFile)) = none) :
    executeDockerBuildFromImportFile.goroutine docker id dockerFile w =
      (none, { DockerRequests := (w.DockerRequests.set id statusRunning).set id statusSuccess,
               trace := w.trace ++ traceSucceeded id dockerFile }) := by
  simp [executeDockerBuildFromImportFile.goroutine, executeDockerBuildFromImportFile.goBody,
    Cmd.Run, hload, hrun, log.Printf, World.emit, World.set, recover, traceSucceeded]

theorem set_requests_same (m : DockerBuildRequestMap) (k v : String) :
    (m.set k v).requests k = some v := by
  simp [DockerBuildRequestMap.set]

theorem set_requests_other (m : DockerBuildRequestMap) (k v k2 : String) (h : k2 ≠ k) :
    (m.set k v).requests k2 = m.requests k2 := by
  simp [DockerBuildRequestMap.set, h]

/-! ## Build pipeline: claims -/

/-- C1. When the load command and the run command both return no error, the
pipeline goroutine leaves the registry entry of its request id equal to `Done`,
performs exactly one send on `dockerRequestChan` (after the `Done` write, as its
last action), and the value sent carries the request id and the submitted
`DockerBuildFile` unchanged. -/
theorem pipeline_success_done_and_one_event (docker : Runtime) (id : String)
    (dockerFile : DockerBuildFile) (w : World)
    (hload : docker (loadDockerImageCmd dockerFile) = none)
    (hrun : docker (runDockerImageCmd id (imageNameOf dockerFile)) = none) :
    (executeDockerBuildFromImportFile.goroutine docker id dockerFile w).2.DockerRequests.requests id
        = some statusSuccess ∧
    sends (executeDockerBuildFromImportFile.goroutine docker id dockerFile w).2.trace
        = sends w.trace ++ [{ id := id, buildFile := dockerFile }] ∧
    (∃ before, (executeDockerBuildFromImportFile.goroutine docker id dockerFile w).2.trace
        = w.trace ++ before ++
            [Event.set id statusSuccess, Event.send { id := id, buildFile := dockerFile }] ∧
        sends before = []) := by
  rw [goroutine_succeeded docker id dockerFile w hload hrun]
  refine ⟨set_requests_same _ _ _, ?_, ?_⟩
  · simp [sends_append, traceSucceeded, sends]
  · refine ⟨[Event.set id statusRunning,
      Event.log ("[" ++ id ++ "] loading docker archive"),
      Event.exec (loadDockerImageCmd dockerFile),
      Event.log ("[" ++ id ++ "] running command"),
      Event.exec (runDockerImageCmd id (imageNameOf dockerFile))], ?_, rfl⟩
    simp [traceSucceeded]

theorem pipeline_success_done_and_one_event_witness :
    (fun _ => none : Runtime) (loadDockerImageCmd ⟨"web", "v1", [80], [1, 2]⟩) = none ∧
    (fun _ => none : Runtime) (runDockerImageCmd "req1" (imageNameOf ⟨"web", "v1", [80], [1, 2]⟩))
        = none ∧
    (executeDockerBuildFromImportFile.goroutine (fun _ => none) "req1"
        ⟨"web", "v1", [80], [1, 2]⟩ World.init).2.DockerRequests.requests "req1"
        = some statusSuccess ∧
    sends (executeDockerBuildFromImportFile.goroutine (fun _ => none) "req1"
        ⟨"web", "v1", [80], [1, 2]⟩ World.init).2.trace
        = sends World.init.trace ++ [{ id := "req1", buildFile := ⟨"web", "v1", [80], [1, 2]⟩ }] :=
  ⟨rfl, rfl,
   (pipeline_success_done_and_one_event (fun _ => none) "req1" ⟨"web", "v1", [80], [1, 2]⟩
      World.init rfl rfl).1,
   (pipeline_success_done_and_one_event (fun _ => none) "req1" ⟨"web", "v1", [80], [1, 2]⟩
      World.init rfl rfl).2.1⟩

/-- C2. When the load command returns an error, the pipeline goroutine leaves
the registry entry of its request id equal to `Failed`; the only command it runs
is the load command (the run command is never invoked), its writes for the id
are `Running` then `Failed` (no `Done`), and it sends nothing on
`dockerRequestChan`. -/
theorem pipeline_load_failure_aborts (docker : Runtime) (id : String)
    (dockerFile : DockerBuildFile) (w : World) (err : String)
    (hload : docker (loadDockerImageCmd dockerFile) = some err) :
    (executeDockerBuildFromImportFile.goroutine docker id dockerFile w).2.DockerRequests.requests id
        = some statusFailed ∧
    execs (executeDockerBuildFromImportFile.goroutine docker id dockerFile w).2.trace
        = execs w.trace ++ [loadDockerImageCmd dockerFile] ∧
    writes (executeDockerBuildFromImportFile.goroutine docker id dockerFile w).2.trace
        = writes w.trace ++ [(id, statusRunning), (id, statusFailed)] ∧
    sends (executeDockerBuildFromImportFile.goroutine docker id dockerFile w).2.trace
        = sends w.trace ∧
    (executeDockerBuildFromImportFile.goroutine docker id dockerFile w).2.trace
        = w.trace ++ [Event.set id statusRunning,
            Event.log ("[" ++ id ++ "] loading docker archive"),
            Event.exec (loadDockerImageCmd dockerFile),
            Event.set id statusFailed,
            Event.log "import the docker image failed\n",
            Event.log (err ++ "\n")] := by
  rw [goroutine_load_failed docker id dockerFile w err hload]
  refine ⟨set_requests_same _ _ _, ?_, ?_, ?_, ?_⟩
  · simp [execs_append, traceLoadFailed, execs]
  · simp [writes_append, traceLoadFailed, writes]
  · simp [sends_append, traceLoadFailed, sends]
  · rfl

theorem pipeline_load_failure_aborts_witness :
    (fun _ => some "exit status 1" : Runtime) (loadDockerImageCmd ⟨"web", "v1", [80], [1, 2]⟩)
        = some "exit status 1" ∧
    (executeDockerBuildFromImportFile.goroutine (fun _ => some "exit status 1") "req1"
        ⟨"web", "v1", [80], [1, 2]⟩ World.init).2.DockerRequests.requests "req1"
        = some statusFailed ∧
    execs (executeDockerBuildFromImportFile.goroutine (fun _ => some "exit status 1") "req1"
        ⟨"web", "v1", [80], [1, 2]⟩ World.init).2.trace
        = execs World.init.trace ++ [loadDockerImageCmd ⟨"web", "v1", [80], [1, 2]⟩] :=
  ⟨rfl,
   (pipeline_load_failure_aborts (fun _ => some "exit status 1") "req1"
      ⟨"web", "v1", [80], [1, 2]⟩ World.init "exit status 1" rfl).1,
   (pipeline_load_failure_aborts (fun _ => some "exit status 1") "req1"
      ⟨"web", "v1", [80], [1, 2]⟩ World.init "exit status 1" rfl).2.1⟩

/-- C3. For every runtime behaviour, request id, submission and starting state,
the status values the pipeline goroutine writes for its id are exactly
`Running` followed by one terminal value: either `Running, Failed` or
`Running, Done`. -/
theorem pipeline_status_sequence (docker : Runtime) (id : String)
    (dockerFile : DockerBuildFile) (w : World) :
    writesFor id (executeDockerBuildFromImportFile.goroutine docker id dockerFile w).2.trace
        = writesFor id w.trace ++ [statusRunning, statusFailed] ∨
    writesFor id (executeDockerBuildFromImportFile.goroutine docker id dockerFile w).2.trace
        = writesFor id w.trace ++ [statusRunning, statusSuccess] := by
  cases hload : docker (loadDockerImageCmd dockerFile) with
  | some err =>
    left
    rw [goroutine_load_failed docker id dockerFile w err hload]
    simp [writesFor_append, traceLoadFailed, writesFor]
  | none =>
    cases hrun : docker (runDockerImageCmd id (imageNameOf dockerFile)) with
    | some err =>
      left
      rw [goroutine_run_failed docker id dockerFile w err hload hrun]
      simp [writesFor_append, traceRunFailed, writesFor]
    | none =>
      right
      rw [goroutine_succeeded docker id dockerFile w hload hrun]
      simp [writesFor_append, traceSucceeded, writesFor]

/-- C4. For every run of the pipeline goroutine, either the final status of its
id is `Done`, both steps succeeded and exactly one value was sent on
`dockerRequestChan`, or the final status is `Failed`, the load or the run step
returned an error and nothing was sent. -/
theorem pipeline_publish_count (docker : Runtime) (id : String)
    (dockerFile : DockerBuildFile) (w : World) :
    ((executeDockerBuildFromImportFile.goroutine docker id dockerFile w).2.DockerRequests.requests id
        = some statusSuccess ∧
      sends (executeDockerBuildFromImportFile.goroutine docker id dockerFile w).2.trace
        = sends w.trace ++ [{ id := id, buildFile := dockerFile }] ∧
      docker (loadDockerImageCmd dockerFile) = none ∧
      docker (runDockerImageCmd id (imageNameOf dockerFile)) = none) ∨
    ((executeDockerBuildFromImportFile.goroutine docker id dockerFile w).2.DockerRequests.requests id
        = some statusFailed ∧
      sends (executeDockerBuildFromImportFile.goroutine docker id dockerFile w).2.trace
        = sends w.trace ∧
      (docker (loadDockerImageCmd dockerFile) ≠ none ∨
       docker (runDockerImageCmd id (imageNameOf dockerFile)) ≠ none)) := by
  cases hload : docker (loadDockerImageCmd dockerFile) with
  | some err =>
    right
    rw [goroutine_load_failed docker id dockerFile w err hload]
    refine ⟨set_requests_same _ _ _, ?_, Or.inl (by simp)⟩
    simp [sends_append, traceLoadFailed, sends]
  | none =>
    cases hrun : docker (runDockerImageCmd id (imageNameOf dockerFile)) with
    | some err =>
      right
      rw [goroutine_run_failed docker id dockerFile w err hload hrun]
      refine ⟨set_requests_same _ _ _, ?_, Or.inr (by simp)⟩
      simp [sends_append, traceRunFailed, sends]
    | none =>
      left
      rw [goroutine_succeeded docker id dockerFile w hload hrun]
      refine ⟨set_requests_same _ _ _, ?_, rfl, rfl⟩
      simp [sends_append, traceSucceeded, sends]

/-- C7. The arguments of the run command are
`docker run -d -P --name <id> <name>:<tag>`: they name the instance with the
request id and target the image `name:tag`, but they do not depend on the
submitted ports. A submission asking for ports 8080 and 443 runs exactly the
commands of the same submission with no ports. -/
theorem run_command_ignores_ports :
    (∀ (id : String) (dockerFile : DockerBuildFile) (ps : List Int),
      (runDockerImageCmd id (imageNameOf dockerFile)).Args
          = ["docker", "run", "-d", "-P", "--name", id, dockerFile.name ++ ":" ++ dockerFile.tag] ∧
      runDockerImageCmd id (imageNameOf { dockerFile with ports := ps })
          = runDockerImageCmd id (imageNameOf dockerFile)) ∧
    execs (executeDockerBuildFromImportFile.goroutine (fun _ => none) "req1"
        ⟨"web", "v1", [8080, 443], [1, 2]⟩ World.init).2.trace
      = [{ Path := "docker", Args := ["docker", "load"], Stdin := some [1, 2] },
         { Path := "docker", Args := ["docker", "run", "-d", "-P", "--name", "req1", "web:v1"],
           Stdin := none }] ∧
    execs (executeDockerBuildFromImportFile.goroutine (fun _ => none) "req1"
        ⟨"web", "v1", [], [1, 2]⟩ World.init).2.trace
      = execs (executeDockerBuildFromImportFile.goroutine (fun _ => none) "req1"
        ⟨"web", "v1", [8080, 443], [1, 2]⟩ World.init).2.trace := by
  refine ⟨fun id dockerFile ps => ⟨rfl, rfl⟩, by decide, by decide⟩

/-- C9. `executeDockerBuildFromImportFile` returns the request id without having
registered it: for every entropy source, submission and state, the registry at
return is the registry at the call. With the registry empty it returns the id
`0123456789abcdef`, its only action being the start of the goroutine, and the
registry has no entry for that id; the handler redirects an accepted submission
to `/status/0123456789abcdef` in that same state. The entry exists only once the
goroutine has run. -/
theorem execute_returns_before_running_is_registered :
    (∀ (src : Nat → Int) (dockerFile : DockerBuildFile) (w : World),
      (executeDockerBuildFromImportFile src dockerFile w).2.DockerRequests = w.DockerRequests) ∧
    (executeDockerBuildFromImportFile countingSource ⟨"web", "v1", [80], [1, 2]⟩
        World.init).1 = .ok "0123456789abcdef" ∧
    (executeDockerBuildFromImportFile countingSource ⟨"web", "v1", [80], [1, 2]⟩
        World.init).2.trace = [Event.spawn "0123456789abcdef" ⟨"web", "v1", [80], [1, 2]⟩] ∧
    (executeDockerBuildFromImportFile countingSource ⟨"web", "v1", [80], [1, 2]⟩
        World.init).2.DockerRequests.requests "0123456789abcdef" = none ∧
    (executeDockerBuildFromImportFile countingSource ⟨"web", "v1", [80], [1, 2]⟩
        World.init).2.DockerRequests.requests "0123456789abcdef" ≠ some statusRunning ∧
    (imageHandlerFunc countingSource (sampleRequest "POST" "web" "v1" "80") World.init).1
      = { code := 302, body := "", location := some "/status/0123456789abcdef" } ∧
    (imageHandlerFunc countingSource (sampleRequest "POST" "web" "v1" "80")
        World.init).2.DockerRequests.requests "0123456789abcdef" = none ∧
    (∀ docker : Runtime,
      (executeDockerBuildFromImportFile.goroutine docker "0123456789abcdef"
          ⟨"web", "v1", [80], [1, 2]⟩
          (executeDockerBuildFromImportFile countingSource ⟨"web", "v1", [80], [1, 2]⟩
            World.init).2).2.DockerRequests.requests "0123456789abcdef" ≠ none) := by
  refine ⟨?_, rfl, rfl, rfl, ?_, rfl, rfl, ?_⟩
  · intro src dockerFile w
    unfold executeDockerBuildFromImportFile
    cases generateUUID src with
    | error e => rfl
    | ok id => rfl
  · intro h
    exact Option.noConfusion h
  · intro docker
    cases hload : docker (loadDockerImageCmd ⟨"web", "v1", [80], [1, 2]⟩) with
    | some err =>
      rw [goroutine_load_failed docker _ _ _ err hload]
      simp [set_requests_same]
    | none =>
      cases hrun : docker (runDockerImageCmd "0123456789abcdef"
          (imageNameOf ⟨"web", "v1", [80], [1, 2]⟩)) with
      | some err =>
        rw [goroutine_run_failed docker _ _ _ err hload hrun]
        simp [set_requests_same]
      | none =>
        rw [goroutine_succeeded docker _ _ _ hload hrun]
        simp [set_requests_same]

/-- C10. For distinct request ids `a` and `b`, a run of the pipeline goroutine
of `a` leaves the registry entry of `b` as it was, for every behaviour of the
runtime; every registry write of the run has key `a`; no panic leaves the
goroutine; and `set k v` makes the entry of `k` equal to `v`, keeps every other
entry and removes none. -/
theorem pipeline_isolated (docker : Runtime) (a b : String) (dockerFile : DockerBuildFile)
    (w : World) (hab : a ≠ b) :
    (executeDockerBuildFromImportFile.goroutine docker a dockerFile w).2.DockerRequests.requests b
        = w.DockerRequests.requests b ∧
    (∃ ws, writes (executeDockerBuildFromImportFile.goroutine docker a dockerFile w).2.trace
        = writes w.trace ++ ws ∧ ∀ kv ∈ ws, kv.1 = a) ∧
    (executeDockerBuildFromImportFile.goroutine docker a dockerFile w).1 = none ∧
    (∀ (m : DockerBuildRequestMap) (k v : String), (m.set k v).requests k = some v) ∧
    (∀ (m : DockerBuildRequestMap) (k v k2 : String), k2 ≠ k →
        (m.set k v).requests k2 = m.requests k2) ∧
    (∀ (m : DockerBuildRequestMap) (k v k2 : String), m.requests k2 ≠ none →
        (m.set k v).requests k2 ≠ none) := by
  have hba : b ≠ a := fun h => hab h.symm
  refine ⟨?_, ?_, ?_, set_requests_same, set_requests_other, ?_⟩
  · cases hload : docker (loadDockerImageCmd dockerFile) with
    | some err =>
      rw [goroutine_load_failed docker a dockerFile w err hload]
      simp [set_requests_other, hba]
    | none =>
      cases hrun : docker (runDockerImageCmd a (imageNameOf dockerFile)) with
      | some err =>
        rw [goroutine_run_failed docker a dockerFile w err hload hrun]
        simp [set_requests_other, hba]
      | none =>
        rw [goroutine_succeeded docker a dockerFile w hload hrun]
        simp [set_requests_other, hba]
  · cases hload : docker (loadDockerImageCmd dockerFile) with
    | some err =>
      rw [goroutine_load_failed docker a dockerFile w err hload]
      exact ⟨[(a, statusRunning), (a, statusFailed)],
        by simp [writes_append, traceLoadFailed, writes], by simp⟩
    | none =>
      cases hrun : docker (runDockerImageCmd a (imageNameOf dockerFile)) with
      | some err =>
        rw [goroutine_run_failed docker a dockerFile w err hload hrun]
        exact ⟨[(a, statusRunning), (a, statusFailed)],
          by simp [writes_append, traceRunFailed, writes], by simp⟩
      | none =>
        rw [goroutine_succeeded docker a dockerFile w hload hrun]
        exact ⟨[(a, statusRunning), (a, statusSuccess)],
          by simp [writes_append, traceSucceeded, writes], by simp⟩
  · cases hload : docker (loadDockerImageCmd dockerFile) with
    | some err => rw [goroutine_load_failed docker a dockerFile w err hload]
    | none =>
      cases hrun : docker (runDockerImageCmd a (imageNameOf dockerFile)) with
      | some err => rw [goroutine_run_failed docker a dockerFile w err hload hrun]
      | none => rw [goroutine_succeeded docker a dockerFile w hload hrun]
  · intro m k v k2 h
    by_cases hk : k2 = k
    · rw [hk, set_requests_same]; simp
    · rw [set_requests_other m k v k2 hk]; exact h

theorem pipeline_isolated_witness :
    "reqA" ≠ "reqB" ∧
    (executeDockerBuildFromImportFile.goroutine (fun _ => some "exit status 1") "reqA"
        ⟨"web", "v1", [80], [1, 2]⟩
        (World.init.set "reqB" statusRunning)).2.DockerRequests.requests "reqB"
      = (World.init.set "reqB" statusRunning).DockerRequests.requests "reqB" ∧
    (executeDockerBuildFromImportFile.goroutine (fun _ => some "exit status 1") "reqA"
        ⟨"web", "v1", [80], [1, 2]⟩ (World.init.set "reqB" statusRunning)).1 = none :=
  ⟨by decide,
   (pipeline_isolated (fun _ => some "exit status 1") "reqA" "reqB" ⟨"web", "v1", [80], [1, 2]⟩
      (World.init.set "reqB" statusRunning) (by decide)).1,
   (pipeline_isolated (fun _ => some "exit status 1") "reqA" "reqB" ⟨"web", "v1", [80], [1, 2]⟩
      (World.init.set "reqB" statusRunning) (by decide)).2.2.1⟩

/-! ## Submission handler -/

theorem validateFormInputs_empty : validateFormInputs "" = some "invalid form input" := rfl

theorem validateFormInputs_nonempty (s : String) (h : s ≠ "") : validateFormInputs s = none := by
  simp [validateFormInputs, h]

theorem imageHandlerFunc_not_post (src : Nat → Int) (r : Request) (w : World)
    (hm : r.Method ≠ "POST") :
    imageHandlerFunc src r w
      = (http.Error ("only POST is supported, got " ++ r.Method) 405, w) := by
  simp [imageHandlerFunc, imageHandlerFunc.body, hm, recover]

theorem imageHandlerFunc_post_rejects (r : Request) (w : World) (hm : r.Method = "POST")
    (h : r.PostFormValue imageNameFormKey = "" ∨ r.PostFormValue imageTagFormKey = "") :
    ∃ msg, ∀ src : Nat → Int, imageHandlerFunc src r w
      = (http.Error (msg ++ "\n") 400, w.emit (Event.log (msg ++ "\n"))) := by
  cases hf : r.FormFile imageFileFormKey with
  | error err =>
    refine ⟨"unable to get docker file " ++ err, fun src => ?_⟩
    simp [imageHandlerFunc, imageHandlerFunc.body, hm, hf, log.Panicln, recover]
  | ok dockerFile =>
    by_cases hn : r.PostFormValue imageNameFormKey = ""
    · refine ⟨"invalid form input", fun src => ?_⟩
      simp [imageHandlerFunc, imageHandlerFunc.body, hm, hf, hn, validateFormInputs_empty,
        log.Panicln, recover]
    · have ht : r.PostFormValue imageTagFormKey = "" := h.resolve_left hn
      refine ⟨"invalid form input", fun src => ?_⟩
      simp [imageHandlerFunc, imageHandlerFunc.body, hm, hf, validateFormInputs_nonempty _ hn,
        ht, validateFormInputs_empty, log.Panicln, recover]

/-- C6 fails as stated: a GET request whose name field is empty is answered
with status 405, not 400. -/
theorem empty_name_get_request_is_405 :
    (sampleRequest "GET" "" "v1" "80").PostFormValue imageNameFormKey = "" ∧
    (imageHandlerFunc countingSource (sampleRequest "GET" "" "v1" "80") World.init).1.code = 405 ∧
    (imageHandlerFunc countingSource (sampleRequest "GET" "" "v1" "80") World.init).1.code ≠ 400 := by
  refine ⟨rfl, rfl, ?_⟩
  decide

/-- C6, amended. A request whose name field or tag field is the empty string is
rejected: with status 400 when its method is POST, with status 405 otherwise.
In both cases the registry is unchanged, no goroutine is started, no registry
write, external command or channel send happens, and the outcome does not
depend on the entropy source (no identifier is drawn). `validateFormInputs`
returns an error exactly for the empty string. -/
theorem imageHandlerFunc_rejects_empty_name_or_tag (src : Nat → Int) (r : Request) (w : World)
    (h : r.PostFormValue imageNameFormKey = "" ∨ r.PostFormValue imageTagFormKey = "") :
    ((r.Method = "POST" ∧ (imageHandlerFunc src r w).1.code = 400) ∨
     (r.Method ≠ "POST" ∧ (imageHandlerFunc src r w).1.code = 405)) ∧
    (imageHandlerFunc src r w).2.DockerRequests = w.DockerRequests ∧
    spawns (imageHandlerFunc src r w).2.trace = spawns w.trace ∧
    writes (imageHandlerFunc src r w).2.trace = writes w.trace ∧
    execs (imageHandlerFunc src r w).2.trace = execs w.trace ∧
    sends (imageHandlerFunc src r w).2.trace = sends w.trace ∧
    (∀ src2 : Nat → Int, imageHandlerFunc src2 r w = imageHandlerFunc src r w) ∧
    (∀ s : String, validateFormInputs s ≠ none ↔ s = "") := by
  have hv : ∀ s : String, validateFormInputs s ≠ none ↔ s = "" := by
    intro s
    by_cases hs : s = ""
    · simp [hs, validateFormInputs]
    · simp [hs, validateFormInputs]
  by_cases hm : r.Method = "POST"
  · obtain ⟨msg, hmsg⟩ := imageHandlerFunc_post_rejects r w hm h
    refine ⟨Or.inl ⟨hm, ?_⟩, ?_, ?_, ?_, ?_, ?_, ?_, hv⟩
    · rw [hmsg src]; rfl
    · rw [hmsg src]; rfl
    · rw [hmsg src]; simp [World.emit, spawns_append, spawns]
    · rw [hmsg src]; simp [World.emit, writes_append, writes]
    · rw [hmsg src]; simp [World.emit, execs_append, execs]
    · rw [hmsg src]; simp [World.emit, sends_append, sends]
    · intro src2; rw [hmsg src, hmsg src2]
  · have hno := imageHandlerFunc_not_post
    refine ⟨Or.inr ⟨hm, ?_⟩, ?_, ?_, ?_, ?_, ?_, ?_, hv⟩
    · rw [hno src r w hm]; rfl
    · rw [hno src r w hm]
    · rw [hno src r w hm]
    · rw [hno src r w hm]
    · rw [hno src r w hm]
    · rw [hno src r w hm]
    · intro src2; rw [hno src r w hm, hno src2 r w hm]

theorem imageHandlerFunc_rejects_empty_name_or_tag_witness :
    ((sampleRequest "POST" "" "v1" "80").PostFormValue imageNameFormKey = "" ∨
     (sampleRequest "POST" "" "v1" "80").PostFormValue imageTagFormKey = "") ∧
    ((sampleRequest "POST" "" "v1" "80").Method = "POST" ∧
      (imageHandlerFunc countingSource (sampleRequest "POST" "" "v1" "80") World.init).1.code = 400 ∨
     (sampleRequest "POST" "" "v1" "80").Method ≠ "POST" ∧
      (imageHandlerFunc countingSource (sampleRequest "POST" "" "v1" "80") World.init).1.code = 405) ∧
    spawns (imageHandlerFunc countingSource (sampleRequest "POST" "" "v1" "80") World.init).2.trace
      = spawns World.init.trace :=
  ⟨Or.inl rfl,
   (imageHandlerFunc_rejects_empty_name_or_tag countingSource (sampleRequest "POST" "" "v1" "80")
      World.init (Or.inl rfl)).1,
   (imageHandlerFunc_rejects_empty_name_or_tag countingSource (sampleRequest "POST" "" "v1" "80")
      World.init (Or.inl rfl)).2.2.1⟩

/-- C8. A POST submission with an archive, name `web`, tag `v1` and an empty
(or absent) ports field is answered with status 400 and starts no goroutine:
`strings.Split` of the empty string yields one empty piece, which `ParseInt`
refuses. With the ports field `80,443` the submission is accepted (302 to
`/status/<id>`), but the ports stored in the `DockerBuildFile` are
`0, 0, 80, 443`: the slice made with length 2 is appended to. -/
theorem ports_field_empty_rejected_and_zero_padded :
    strings.Split "" ',' = [""] ∧
    strconv.ParseInt "" = .error "strconv.ParseInt: parsing \"\": invalid syntax" ∧
    (imageHandlerFunc countingSource (sampleRequest "POST" "web" "v1" "") World.init).1
      = { code := 400, body := "strconv.ParseInt: parsing \"\": invalid syntax\n\n",
          location := none } ∧
    spawns (imageHandlerFunc countingSource (sampleRequest "POST" "web" "v1" "") World.init).2.trace
      = [] ∧
    (imageHandlerFunc countingSource (sampleRequest "POST" "web" "v1" "80,443") World.init).1
      = { code := 302, body := "", location := some "/status/0123456789abcdef" } ∧
    spawns (imageHandlerFunc countingSource (sampleRequest "POST" "web" "v1" "80,443")
        World.init).2.trace
      = [("0123456789abcdef", ⟨"web", "v1", [0, 0, 80, 443], [1, 2, 3]⟩)] :=
  ⟨rfl, rfl, rfl, rfl, rfl, rfl⟩

end DockerServer
